import Mathlib

set_option autoImplicit false

/-!
Shallow embedding of `src/backend/src/lib.rs` of the crisis-update canister:
a durable map from `u64` ids to records, a durable id counter, and the
CRUD/query operations layered on top.  `u64` values are modelled as `Nat`
(the counter never wraps in practice and no operation relies on wraparound),
the stable BTreeMap as a key-ascending association list, and the ambient
`caller()` / `time()` environment as explicit arguments.  A Rust `panic`
(`Option::expect` on `None`) is a distinct `Outcome.panic` result, separate
from the typed `Error` values.
-/

namespace CrisisBackend

/-- The persisted entity (`struct CrisisUpdate` in lib.rs). -/
structure CrisisUpdate where
  id : Nat
  title : String
  author : String
  description : String
  location : String
  timestamp : Option Nat
  created_at : Nat
deriving DecidableEq, Repr

/-- The request payload (`struct CrisisUpdatePayload` in lib.rs), carrying the
three caller-supplied textual fields. -/
structure CrisisUpdatePayload where
  title : String
  description : String
  location : String
deriving DecidableEq, Repr

/-- The typed error enum of lib.rs. -/
inductive Error where
  | NotFound (msg : String)
  | InputValidationFailed (msg : String)
  | AuthenticationFailed (msg : String)
deriving DecidableEq, Repr

/-- Result of an invocation: a value, a typed error, or an abnormal
termination (Rust `panic`, a canister trap). -/
inductive Outcome (Value : Type) where
  | ok (value : Value)
  | err (e : Error)
  | panic (msg : String)
deriving DecidableEq, Repr

/-- Contents of the stable `StableBTreeMap<u64, CrisisUpdate>`, held as an
association list in ascending key order. -/
abbrev Store := List (Nat × CrisisUpdate)

/-- `BTreeMap::get`. -/
def storeGet (m : Store) (id : Nat) : Option CrisisUpdate :=
  match m with
  | [] => none
  | (k, v) :: rest => if k = id then some v else storeGet rest id

/-- `BTreeMap::insert`: insert or overwrite, keeping keys ascending. -/
def storeInsert (m : Store) (id : Nat) (v : CrisisUpdate) : Store :=
  match m with
  | [] => [(id, v)]
  | (k, w) :: rest =>
    if id < k then (id, v) :: (k, w) :: rest
    else if id = k then (id, v) :: rest
    else (k, w) :: storeInsert rest id v

/-- `BTreeMap::remove` (the surviving entries). -/
def storeRemove (m : Store) (id : Nat) : Store :=
  match m with
  | [] => []
  | (k, w) :: rest => if k = id then rest else (k, w) :: storeRemove rest id

/-- The durable state of the canister: the id counter (`CRISIS_ID_COUNTER`, a
stable cell initialised to 0) and the record map (`CRISIS_STORAGE`). -/
structure CanisterState where
  counter : Nat
  storage : Store
deriving DecidableEq, Repr

/-- The state of a fresh canister: counter 0, empty storage. -/
def initState : CanisterState := { counter := 0, storage := [] }

/-- Stand-in for the rendered message of the `ValidationErrors` display of the `validator` crate; its exact text is irrelevant to the control
flow, only the `InputValidationFailed` wrapper matters. -/
def validation_err_msg : String :=
  "payload violates a minimum length constraint"

/-- `_check_input` from lib.rs: `payload.validate()` with the derived rules
`length(min = 1)` on title, `length(min = 10)` on description and
`length(min = 2)` on location (the validator crate counts chars). -/
def _check_input (payload : CrisisUpdatePayload) : Except Error Unit :=
  if payload.title.length < 1 || payload.description.length < 10
      || payload.location.length < 2 then
    Except.error (Error.InputValidationFailed validation_err_msg)
  else
    Except.ok ()

/-- `_check_if_author` from lib.rs: string comparison of the ambient caller
against the stored author. -/
def _check_if_author (crisis_update : CrisisUpdate) (c : String) : Except Error Unit :=
  if crisis_update.author ≠ c then
    Except.error (Error.AuthenticationFailed
      ("Caller=" ++ c ++ " is not the author of the crisis_update with id="
        ++ toString crisis_update.id))
  else
    Except.ok ()

/-- `_get_crisis_update`. -/
def _get_crisis_update (id : Nat) (st : CanisterState) : Option CrisisUpdate :=
  storeGet st.storage id

/-- `get_crisis_update`. -/
def get_crisis_update (id : Nat) (st : CanisterState) : Except Error CrisisUpdate :=
  match _get_crisis_update id st with
  | some update => Except.ok update
  | none => Except.error (Error.NotFound
      ("a crisis update with id=" ++ toString id ++ " not found"))

/-- `do_insert_crisis_update`: insert the record under its own `id` field. -/
def do_insert_crisis_update (update : CrisisUpdate) (st : CanisterState) : CanisterState :=
  { st with storage := storeInsert st.storage update.id update }

/-- `add_crisis_update`: validate, then allocate the id (the stable cell
returns the pre-increment counter value), build the record with the ambient
caller and time, and insert it. -/
def add_crisis_update (update : CrisisUpdatePayload) (c : String) (now : Nat)
    (st : CanisterState) : Except Error CrisisUpdate × CanisterState :=
  match _check_input update with
  | Except.error e => (Except.error e, st)
  | Except.ok _ =>
    let id := st.counter
    let st1 : CanisterState := { st with counter := st.counter + 1 }
    let crisis_update : CrisisUpdate :=
      { id := id, title := update.title, author := c,
        description := update.description, location := update.location,
        timestamp := none, created_at := now }
    (Except.ok crisis_update, do_insert_crisis_update crisis_update st1)

/-- The field overwrite performed by `update_crisis_update` once all gates
pass: title, description and location come from the payload and `timestamp`
becomes `Some now`; id, author and created_at are untouched. -/
def applyPayload (u : CrisisUpdate) (p : CrisisUpdatePayload) (now : Nat) : CrisisUpdate :=
  { u with
    title := p.title,
    description := p.description,
    location := p.location,
    timestamp := some now }

/-- `update_crisis_update`: lookup, author check, payload check, then
overwrite the mutable fields and refresh `timestamp`. -/
def update_crisis_update (id : Nat) (payload : CrisisUpdatePayload) (c : String)
    (now : Nat) (st : CanisterState) : Except Error CrisisUpdate × CanisterState :=
  match storeGet st.storage id with
  | some update =>
    match _check_if_author update c with
    | Except.error e => (Except.error e, st)
    | Except.ok _ =>
      match _check_input payload with
      | Except.error e => (Except.error e, st)
      | Except.ok _ =>
        let updated : CrisisUpdate :=
          { update with title := payload.title,
                        description := payload.description,
                        location := payload.location,
                        timestamp := some now }
        (Except.ok updated, do_insert_crisis_update updated st)
  | none => (Except.error (Error.NotFound
      ("could not update a crisis update with id=" ++ toString id
        ++ ". update not found")), st)

/-- `delete_crisis_update`: the lookup uses `Option::expect`, so an absent id
panics (traps) instead of producing the typed `NotFound` of the dead match
arm below the author check. -/
def delete_crisis_update (id : Nat) (c : String) (st : CanisterState) :
    Outcome CrisisUpdate × CanisterState :=
  match _get_crisis_update id st with
  | none => (Outcome.panic
      ("could not delete a crisis_update with id=" ++ toString id
        ++ ". crisis_update not found."), st)
  | some crisis_update =>
    match _check_if_author crisis_update c with
    | Except.error e => (Outcome.err e, st)
    | Except.ok _ =>
      match storeGet st.storage id with
      | some update =>
        (Outcome.ok update, { st with storage := storeRemove st.storage id })
      | none => (Outcome.err (Error.NotFound
          ("could not delete a crisis update with id=" ++ toString id
            ++ ". update not found.")),
          { st with storage := storeRemove st.storage id })

/-- `list_all_crisis_updates`. -/
def list_all_crisis_updates (st : CanisterState) : Except Error (List CrisisUpdate) :=
  if st.storage.isEmpty then
    Except.error (Error.NotFound
      "There are currently no crisis update reported in the canister")
  else
    Except.ok (st.storage.map (fun kv => kv.2))

/-- `get_latest_crisis_update`: `last_key_value` of the key-ordered map. -/
def get_latest_crisis_update (st : CanisterState) : Except Error CrisisUpdate :=
  match st.storage.getLast? with
  | none => Except.error (Error.NotFound
      "There are currently no crisis update reported in the canister")
  | some kv => Except.ok kv.2

/-- `search_crisis_updates_by_location`: empty store and empty filter result
are reported as distinct `NotFound` messages. -/
def search_crisis_updates_by_location (location : String) (st : CanisterState) :
    Except Error (List CrisisUpdate) :=
  if st.storage.isEmpty then
    Except.error (Error.NotFound
      "There are currently no crisis update reported in the canister")
  else
    let filtered := (st.storage.filter (fun kv => kv.2.location = location)).map
      (fun kv => kv.2)
    if filtered.length = 0 then
      Except.error (Error.NotFound
        ("There are currently no crisis update reported in the location ="
          ++ location))
    else
      Except.ok filtered

/-- Rust `Option<u64> >= u64-bound` comparisons under the derived `Option` order, in which `None` is below every `Some`: `timestamp >= start`. -/
def optTsGe (t : Option Nat) (bound : Nat) : Bool :=
  match t with
  | none => false
  | some v => bound ≤ v

/-- `timestamp <= end` under the `Option` order. -/
def optTsLe (t : Option Nat) (bound : Nat) : Bool :=
  match t with
  | none => true
  | some v => v ≤ bound

/-- `timestamp < end` under the `Option` order. -/
def optTsLt (t : Option Nat) (bound : Nat) : Bool :=
  match t with
  | none => true
  | some v => v < bound

/-- `timestamp > start` under the `Option` order. -/
def optTsGt (t : Option Nat) (bound : Nat) : Bool :=
  match t with
  | none => false
  | some v => bound < v

/-- `get_crisis_updates_in_range`: inclusive filter on the optional
`timestamp` field. -/
def get_crisis_updates_in_range (start_timestamp end_timestamp : Nat)
    (st : CanisterState) : List CrisisUpdate :=
  (st.storage.filter (fun kv =>
    optTsGe kv.2.timestamp start_timestamp && optTsLe kv.2.timestamp end_timestamp)).map
    (fun kv => kv.2)

/-- `get_crisis_updates_before`. -/
def get_crisis_updates_before (end_timestamp : Nat) (st : CanisterState) :
    List CrisisUpdate :=
  (st.storage.filter (fun kv => optTsLt kv.2.timestamp end_timestamp)).map
    (fun kv => kv.2)

/-- `get_crisis_updates_after`. -/
def get_crisis_updates_after (start_timestamp : Nat) (st : CanisterState) :
    List CrisisUpdate :=
  (st.storage.filter (fun kv => optTsGt kv.2.timestamp start_timestamp)).map
    (fun kv => kv.2)

/-- `get_crisis_updates_by_id_range`. -/
def get_crisis_updates_by_id_range (start_id end_id : Nat) (st : CanisterState) :
    List CrisisUpdate :=
  (st.storage.filter (fun kv => start_id ≤ kv.2.id && kv.2.id ≤ end_id)).map
    (fun kv => kv.2)

/-- Rust `str::contains`: substring containment, as char-sequence infix
(for valid UTF-8 the byte-level and char-level matches coincide). -/
def strContains (s pat : String) : Bool :=
  decide (pat.data <:+: s.data)

/-- `get_crisis_updates_by_title`: substring filter, empty list when nothing
matches. -/
def get_crisis_updates_by_title (title : String) (st : CanisterState) :
    List CrisisUpdate :=
  (st.storage.filter (fun kv => strContains kv.2.title title)).map (fun kv => kv.2)

/-- `get_crisis_updates_by_description`. -/
def get_crisis_updates_by_description (description : String) (st : CanisterState) :
    List CrisisUpdate :=
  (st.storage.filter (fun kv => strContains kv.2.description description)).map
    (fun kv => kv.2)

/-- Spec-level validity of a payload, written from the wording of the spec: title at
least 1 char, description at least 10, location at least 2. -/
def validPayload (p : CrisisUpdatePayload) : Prop :=
  1 ≤ p.title.length ∧ 10 ≤ p.description.length ∧ 2 ≤ p.location.length

instance (p : CrisisUpdatePayload) : Decidable (validPayload p) := by
  unfold validPayload; infer_instance

/-- Well-formedness the real canister state always has: the map keys are
strictly ascending and every record sits under its own id. -/
def WF (st : CanisterState) : Prop :=
  List.Pairwise (fun a b => a.1 < b.1) st.storage ∧
    ∀ kv ∈ st.storage, kv.2.id = kv.1

/-- A single invocation against the canister, for reasoning about traces. -/
inductive Op where
  | addOp (p : CrisisUpdatePayload) (c : String) (now : Nat)
  | updOp (id : Nat) (p : CrisisUpdatePayload) (c : String) (now : Nat)
  | delOp (id : Nat) (c : String)

/-- Execute one invocation; the second component is the id returned by a
successful `add_crisis_update`, if any. -/
def execOp (op : Op) (st : CanisterState) : CanisterState × Option Nat :=
  match op with
  | Op.addOp p c n =>
    match add_crisis_update p c n st with
    | (Except.ok r, st1) => (st1, some r.id)
    | (Except.error _, st1) => (st1, none)
  | Op.updOp i p c n => ((update_crisis_update i p c n st).2, none)
  | Op.delOp i c => ((delete_crisis_update i c st).2, none)

/-- Run a trace of invocations, collecting the ids handed out by the
successful creates, in order. -/
def run (ops : List Op) (st : CanisterState) : CanisterState × List Nat :=
  match ops with
  | [] => (st, [])
  | op :: rest =>
    match execOp op st with
    | (st1, r) =>
      match run rest st1 with
      | (st2, ids) =>
        (st2, match r with
          | some i => i :: ids
          | none => ids)

/-- Concrete valid payload used for witnesses. -/
def goodPayload : CrisisUpdatePayload :=
  { title := "Flood", description := "Heavy flooding reported downtown",
    location := "Lagos" }

/-- Concrete invalid payload (description shorter than 10 chars). -/
def badPayload : CrisisUpdatePayload :=
  { title := "Flood", description := "bad", location := "Lagos" }

/-- A record authored by A, used in concrete states. -/
def sampleRecord : CrisisUpdate :=
  { id := 0, title := "Flood", author := "A",
    description := "Heavy flooding reported downtown", location := "Lagos",
    timestamp := none, created_at := 1 }

/-- A one-record state holding `sampleRecord` under id 0. -/
def sampleState : CanisterState := { counter := 1, storage := [(0, sampleRecord)] }

/-- `sampleRecord` after an update by A at time 9 with `goodPayload`. -/
def sampleUpdated : CrisisUpdate :=
  { id := 0, title := "Flood", author := "A",
    description := "Heavy flooding reported downtown", location := "Lagos",
    timestamp := some 9, created_at := 1 }

/-- A record located in Nairobi, never updated. -/
def nairobiRecord : CrisisUpdate :=
  { id := 0, title := "Flood", author := "A",
    description := "Heavy flooding reported downtown", location := "Nairobi",
    timestamp := none, created_at := 1 }

/-- A record located in Lagos with a set timestamp. -/
def lagosRecord : CrisisUpdate :=
  { id := 1, title := "Storm", author := "B",
    description := "Severe storm damage reported", location := "Lagos",
    timestamp := some 4, created_at := 2 }

/-- A two-record state with one record in Nairobi and one in Lagos. -/
def twoCityState : CanisterState :=
  { counter := 2, storage := [(0, nairobiRecord), (1, lagosRecord)] }

lemma storeGet_insert_self (m : Store) (id : Nat) (v : CrisisUpdate) :
    storeGet (storeInsert m id v) id = some v := by
  induction m with
  | nil => simp [storeInsert, storeGet]
  | cons kw rest ih =>
    obtain ⟨k, w⟩ := kw
    by_cases h1 : id < k
    · simp [storeInsert, h1, storeGet]
    · by_cases h2 : id = k
      · simp [storeInsert, h1, h2, storeGet]
      · have h3 : ¬ k = id := fun e => h2 e.symm
        simp [storeInsert, h1, h2, storeGet, h3, ih]

lemma check_input_ok_iff (p : CrisisUpdatePayload) :
    _check_input p = Except.ok () ↔ validPayload p := by
  unfold _check_input validPayload
  split
  · rename_i h
    simp only [Bool.or_eq_true, decide_eq_true_eq] at h
    simp only [reduceCtorEq, false_iff]
    omega
  · rename_i h
    simp only [Bool.or_eq_true, decide_eq_true_eq, not_or] at h
    simp only [true_iff]
    omega

lemma check_input_err (p : CrisisUpdatePayload) (h : ¬ validPayload p) :
    _check_input p = Except.error (Error.InputValidationFailed validation_err_msg) := by
  unfold _check_input
  split
  · rfl
  · rename_i hc
    exfalso
    apply h
    simp only [Bool.or_eq_true, decide_eq_true_eq, not_or] at hc
    unfold validPayload
    omega

lemma add_spec_ok (p : CrisisUpdatePayload) (c : String) (n : Nat)
    (st : CanisterState) (h : validPayload p) :
    add_crisis_update p c n st =
      (Except.ok { id := st.counter, title := p.title, author := c,
                   description := p.description, location := p.location,
                   timestamp := none, created_at := n },
       { counter := st.counter + 1,
         storage := storeInsert st.storage st.counter
           { id := st.counter, title := p.title, author := c,
             description := p.description, location := p.location,
             timestamp := none, created_at := n } }) := by
  unfold add_crisis_update
  rw [(check_input_ok_iff p).2 h]
  rfl

lemma add_spec_err (p : CrisisUpdatePayload) (c : String) (n : Nat)
    (st : CanisterState) (h : ¬ validPayload p) :
    add_crisis_update p c n st =
      (Except.error (Error.InputValidationFailed validation_err_msg), st) := by
  unfold add_crisis_update
  rw [check_input_err p h]

lemma check_if_author_ok (u : CrisisUpdate) (c : String) (h : u.author = c) :
    _check_if_author u c = Except.ok () := by
  unfold _check_if_author
  simp [h]

lemma check_if_author_err (u : CrisisUpdate) (c : String) (h : u.author ≠ c) :
    _check_if_author u c = Except.error (Error.AuthenticationFailed
      ("Caller=" ++ c ++ " is not the author of the crisis_update with id="
        ++ toString u.id)) := by
  unfold _check_if_author
  simp [h]

lemma update_spec_notfound (id : Nat) (p : CrisisUpdatePayload) (c : String)
    (n : Nat) (st : CanisterState) (h : storeGet st.storage id = none) :
    update_crisis_update id p c n st =
      (Except.error (Error.NotFound
        ("could not update a crisis update with id=" ++ toString id
          ++ ". update not found")), st) := by
  unfold update_crisis_update
  rw [h]

lemma update_spec_auth_err (id : Nat) (p : CrisisUpdatePayload) (c : String)
    (n : Nat) (st : CanisterState) (u : CrisisUpdate)
    (h : storeGet st.storage id = some u) (ha : u.author ≠ c) :
    update_crisis_update id p c n st =
      (Except.error (Error.AuthenticationFailed
        ("Caller=" ++ c ++ " is not the author of the crisis_update with id="
          ++ toString u.id)), st) := by
  unfold update_crisis_update
  rw [h]
  dsimp only
  rw [check_if_author_err u c ha]

lemma update_spec_invalid (id : Nat) (p : CrisisUpdatePayload) (c : String)
    (n : Nat) (st : CanisterState) (u : CrisisUpdate)
    (h : storeGet st.storage id = some u) (ha : u.author = c)
    (hv : ¬ validPayload p) :
    update_crisis_update id p c n st =
      (Except.error (Error.InputValidationFailed validation_err_msg), st) := by
  unfold update_crisis_update
  rw [h]
  dsimp only
  rw [check_if_author_ok u c ha]
  dsimp only
  rw [check_input_err p hv]

lemma update_spec_ok (id : Nat) (p : CrisisUpdatePayload) (c : String)
    (n : Nat) (st : CanisterState) (u : CrisisUpdate)
    (h : storeGet st.storage id = some u) (ha : u.author = c)
    (hv : validPayload p) :
    update_crisis_update id p c n st =
      (Except.ok (applyPayload u p n),
       do_insert_crisis_update (applyPayload u p n) st) := by
  unfold update_crisis_update
  rw [h]
  dsimp only
  rw [check_if_author_ok u c ha]
  dsimp only
  rw [(check_input_ok_iff p).2 hv]
  rfl

lemma delete_spec_absent (id : Nat) (c : String) (st : CanisterState)
    (h : storeGet st.storage id = none) :
    delete_crisis_update id c st =
      (Outcome.panic ("could not delete a crisis_update with id=" ++ toString id
        ++ ". crisis_update not found."), st) := by
  unfold delete_crisis_update _get_crisis_update
  rw [h]

lemma delete_spec_auth_err (id : Nat) (c : String) (st : CanisterState)
    (u : CrisisUpdate) (h : storeGet st.storage id = some u) (ha : u.author ≠ c) :
    delete_crisis_update id c st =
      (Outcome.err (Error.AuthenticationFailed
        ("Caller=" ++ c ++ " is not the author of the crisis_update with id="
          ++ toString u.id)), st) := by
  unfold delete_crisis_update _get_crisis_update
  rw [h]
  dsimp only
  rw [check_if_author_err u c ha]

lemma delete_spec_ok (id : Nat) (c : String) (st : CanisterState)
    (u : CrisisUpdate) (h : storeGet st.storage id = some u) (ha : u.author = c) :
    delete_crisis_update id c st =
      (Outcome.ok u, { st with storage := storeRemove st.storage id }) := by
  unfold delete_crisis_update _get_crisis_update
  rw [h]
  dsimp only
  rw [check_if_author_ok u c ha]

lemma update_counter (id : Nat) (p : CrisisUpdatePayload) (c : String)
    (n : Nat) (st : CanisterState) :
    (update_crisis_update id p c n st).2.counter = st.counter := by
  unfold update_crisis_update
  split
  · split
    · rfl
    · split
      · rfl
      · rfl
  · rfl

lemma delete_counter (id : Nat) (c : String) (st : CanisterState) :
    (delete_crisis_update id c st).2.counter = st.counter := by
  unfold delete_crisis_update
  split
  · rfl
  · split
    · rfl
    · split
      · rfl
      · rfl

lemma execOp_cases (op : Op) (st : CanisterState) :
    ((execOp op st).2 = none ∧ (execOp op st).1.counter = st.counter) ∨
    ((execOp op st).2 = some st.counter ∧
      (execOp op st).1.counter = st.counter + 1) := by
  cases op with
  | addOp p c n =>
    by_cases h : validPayload p
    · right
      simp [execOp, add_spec_ok p c n st h]
    · left
      simp [execOp, add_spec_err p c n st h]
  | updOp i p c n =>
    left
    simp [execOp, update_counter]
  | delOp i c =>
    left
    simp [execOp, delete_counter]

lemma run_spec (ops : List Op) : ∀ st : CanisterState,
    List.Chain' (· < ·) (run ops st).2 ∧
    (∀ i ∈ (run ops st).2, st.counter ≤ i) ∧
    st.counter ≤ (run ops st).1.counter ∧
    ((run ops st).2 = [] ∨ (run ops st).2.head? = some st.counter) := by
  induction ops with
  | nil => intro st; simp [run]
  | cons op rest ih =>
    intro st
    rcases hc : execOp op st with ⟨st1, r⟩
    have hcase := execOp_cases op st
    rw [hc] at hcase
    obtain ⟨ih1, ih2, ih3, ih4⟩ := ih st1
    rcases hr : run rest st1 with ⟨st2, ids⟩
    rw [hr] at ih1 ih2 ih3 ih4
    dsimp only at ih1 ih2 ih3 ih4
    rcases hcase with ⟨h1, h2⟩ | ⟨h1, h2⟩
    · subst h1
      simp only at h2
      refine ⟨?_, ?_, ?_, ?_⟩
      · simpa [run, hc, hr] using ih1
      · intro i hi
        rw [show (run (op :: rest) st).2 = ids by simp [run, hc, hr]] at hi
        exact h2 ▸ ih2 i hi
      · rw [show (run (op :: rest) st).1 = st2 by simp [run, hc, hr]]
        exact h2 ▸ ih3
      · rw [show (run (op :: rest) st).2 = ids by simp [run, hc, hr]]
        exact h2 ▸ ih4
    · subst h1
      simp only at h2
      have hids : (run (op :: rest) st).2 = st.counter :: ids := by
        simp [run, hc, hr]
      refine ⟨?_, ?_, ?_, ?_⟩
      · rw [hids, List.chain'_cons']
        refine ⟨?_, ih1⟩
        intro y hy
        rcases ih4 with h4 | h4
        · subst h4; simp at hy
        · rw [h4] at hy
          simp only [Option.mem_def, Option.some.injEq] at hy
          omega
      · intro i hi
        rw [hids] at hi
        rcases List.mem_cons.1 hi with h | h
        · omega
        · have := ih2 i h
          omega
      · rw [show (run (op :: rest) st).1 = st2 by simp [run, hc, hr]]
        omega
      · right
        rw [hids]
        rfl

lemma pairwise_imp_of_mem {α : Type} {R S : α → α → Prop} {l : List α}
    (h : ∀ a ∈ l, ∀ b ∈ l, R a b → S a b) (hp : l.Pairwise R) : l.Pairwise S := by
  induction l with
  | nil => exact List.Pairwise.nil
  | cons a rest ih =>
    rw [List.pairwise_cons] at hp ⊢
    obtain ⟨h1, h2⟩ := hp
    refine ⟨?_, ih ?_ h2⟩
    · intro b hb
      exact h a (by simp) b (by simp [hb]) (h1 b hb)
    · intro x hx y hy
      exact h x (by simp [hx]) y (by simp [hy])

/-- C2: across any trace of operations against one store, the ids handed out
by successful `add_crisis_update` calls are strictly increasing (hence no id
is ever returned twice, and deletions never cause an id to be reassigned),
and the first id allocated from a fresh store is 0. -/
theorem add_ids_strictly_increasing (ops : List Op) :
    List.Pairwise (· < ·) (run ops initState).2 ∧
    ((run ops initState).2 ≠ [] → (run ops initState).2.head? = some 0) := by
  obtain ⟨h1, _, _, h4⟩ := run_spec ops initState
  constructor
  · exact List.chain'_iff_pairwise.1 h1
  · intro hne
    rcases h4 with h | h
    · exact absurd h hne
    · exact h

/-- Concrete trace for C2: add by A, delete id 0 by A, add by B; the
returned ids are strictly increasing and start at 0. -/
theorem add_ids_strictly_increasing_witness :
    List.Pairwise (· < ·)
      (run [Op.addOp goodPayload "A" 5, Op.delOp 0 "A",
            Op.addOp goodPayload "B" 6] initState).2 ∧
    (run [Op.addOp goodPayload "A" 5, Op.delOp 0 "A",
          Op.addOp goodPayload "B" 6] initState).2.head? = some 0 :=
  ⟨(add_ids_strictly_increasing _).1,
   (add_ids_strictly_increasing _).2 (by decide)⟩

/-- C3: `update_crisis_update` checks existence, then authorship, then
payload validity, in that order: an absent id yields `NotFound`; a
non-author caller yields `AuthenticationFailed` even when the payload is
also invalid; an invalid payload by the author yields
`InputValidationFailed`; otherwise the mutable fields are replaced from the
payload, `timestamp` is set to `Some now`, the result is stored, and the
updated record is returned. -/
theorem update_check_order (id : Nat) (p : CrisisUpdatePayload) (c : String)
    (n : Nat) (st : CanisterState) :
    (storeGet st.storage id = none →
      ∃ m, update_crisis_update id p c n st =
        (Except.error (Error.NotFound m), st)) ∧
    (∀ u, storeGet st.storage id = some u → u.author ≠ c →
      ∃ m, update_crisis_update id p c n st =
        (Except.error (Error.AuthenticationFailed m), st)) ∧
    (∀ u, storeGet st.storage id = some u → u.author = c → ¬ validPayload p →
      ∃ m, update_crisis_update id p c n st =
        (Except.error (Error.InputValidationFailed m), st)) ∧
    (∀ u, storeGet st.storage id = some u → u.author = c → validPayload p →
      update_crisis_update id p c n st =
        (Except.ok (applyPayload u p n),
         do_insert_crisis_update (applyPayload u p n) st)) := by
  refine ⟨?_, ?_, ?_, ?_⟩
  · intro h
    exact ⟨_, update_spec_notfound id p c n st h⟩
  · intro u h ha
    exact ⟨_, update_spec_auth_err id p c n st u h ha⟩
  · intro u h ha hv
    exact ⟨_, update_spec_invalid id p c n st u h ha hv⟩
  · intro u h ha hv
    exact update_spec_ok id p c n st u h ha hv

/-- Concrete C3 check: a non-author caller with an invalid payload gets
`AuthenticationFailed`, not `InputValidationFailed` or `NotFound`. -/
theorem update_check_order_witness :
    ∃ m, update_crisis_update 0 badPayload "B" 9 sampleState =
      (Except.error (Error.AuthenticationFailed m), sampleState) :=
  (update_check_order 0 badPayload "B" 9 sampleState).2.1 sampleRecord
    (by rfl) (by decide)

/-- C4: authorization and validation failures never mutate the store:
whenever update or delete reports `AuthenticationFailed` or
`InputValidationFailed`, and whenever add reports `InputValidationFailed`,
the storage contents are exactly what they were before the call. -/
theorem failed_gate_no_mutation (st : CanisterState) :
    (∀ p c n m, (add_crisis_update p c n st).1 =
        Except.error (Error.InputValidationFailed m) →
      (add_crisis_update p c n st).2.storage = st.storage) ∧
    (∀ id p c n m,
      ((update_crisis_update id p c n st).1 =
          Except.error (Error.AuthenticationFailed m) ∨
       (update_crisis_update id p c n st).1 =
          Except.error (Error.InputValidationFailed m)) →
      (update_crisis_update id p c n st).2.storage = st.storage) ∧
    (∀ id c m,
      ((delete_crisis_update id c st).1 =
          Outcome.err (Error.AuthenticationFailed m) ∨
       (delete_crisis_update id c st).1 =
          Outcome.err (Error.InputValidationFailed m)) →
      (delete_crisis_update id c st).2.storage = st.storage) := by
  refine ⟨?_, ?_, ?_⟩
  · intro p c n m hm
    by_cases hv : validPayload p
    · rw [add_spec_ok p c n st hv] at hm
      exact absurd hm (by simp)
    · rw [add_spec_err p c n st hv]
  · intro id p c n m hm
    rcases hg : storeGet st.storage id with _ | u
    · rw [update_spec_notfound id p c n st hg]
    · by_cases ha : u.author = c
      · by_cases hv : validPayload p
        · rw [update_spec_ok id p c n st u hg ha hv] at hm
          rcases hm with hm | hm <;> exact absurd hm (by simp)
        · rw [update_spec_invalid id p c n st u hg ha hv]
      · rw [update_spec_auth_err id p c n st u hg ha]
  · intro id c m hm
    rcases hg : storeGet st.storage id with _ | u
    · rw [delete_spec_absent id c st hg]
    · by_cases ha : u.author = c
      · rw [delete_spec_ok id c st u hg ha] at hm
        rcases hm with hm | hm <;> exact absurd hm (by simp)
      · rw [delete_spec_auth_err id c st u hg ha]

/-- Concrete C4 check: a create with an invalid payload leaves the empty
store empty. -/
theorem failed_gate_no_mutation_witness :
    (add_crisis_update badPayload "A" 0 initState).2.storage = initState.storage :=
  (failed_gate_no_mutation initState).1 badPayload "A" 0 validation_err_msg
    (by rfl)

/-- C5: for a payload passing validation, add returns a record carrying the
payload fields under the freshly allocated id, with author = caller,
timestamp unset and created_at = now; the record is stored and a subsequent
get returns it unchanged. -/
theorem add_roundtrip (st : CanisterState) (p : CrisisUpdatePayload)
    (c : String) (n : Nat) (h : validPayload p) :
    ∃ r, (add_crisis_update p c n st).1 = Except.ok r ∧
      r.id = st.counter ∧ r.title = p.title ∧ r.description = p.description ∧
      r.location = p.location ∧ r.author = c ∧ r.timestamp = none ∧
      r.created_at = n ∧
      get_crisis_update r.id (add_crisis_update p c n st).2 = Except.ok r := by
  rw [add_spec_ok p c n st h]
  refine ⟨_, rfl, rfl, rfl, rfl, rfl, rfl, rfl, rfl, ?_⟩
  unfold get_crisis_update _get_crisis_update
  dsimp only
  rw [storeGet_insert_self]

/-- Concrete C5 check: create on a fresh store, then read id 0 back. -/
theorem add_roundtrip_witness :
    ∃ r, (add_crisis_update goodPayload "A" 5 initState).1 = Except.ok r ∧
      r.id = initState.counter ∧ r.title = goodPayload.title ∧
      r.description = goodPayload.description ∧
      r.location = goodPayload.location ∧ r.author = "A" ∧
      r.timestamp = none ∧ r.created_at = 5 ∧
      get_crisis_update r.id (add_crisis_update goodPayload "A" 5 initState).2 =
        Except.ok r :=
  add_roundtrip initState goodPayload "A" 5 (by decide)

/-- C6: a successful update leaves the id, author and created_at of the
existing record unchanged; only title, description and location (taken from
the payload) and timestamp (set to the call time) change. -/
theorem update_preserves_write_once (id : Nat) (p : CrisisUpdatePayload)
    (c : String) (n : Nat) (st : CanisterState) (u r : CrisisUpdate)
    (hu : storeGet st.storage id = some u)
    (hr : (update_crisis_update id p c n st).1 = Except.ok r) :
    r.id = u.id ∧ r.author = u.author ∧ r.created_at = u.created_at ∧
    r.title = p.title ∧ r.description = p.description ∧
    r.location = p.location ∧ r.timestamp = some n := by
  by_cases ha : u.author = c
  · by_cases hv : validPayload p
    · rw [update_spec_ok id p c n st u hu ha hv] at hr
      dsimp only at hr
      simp only [Except.ok.injEq] at hr
      subst hr
      simp [applyPayload]
    · rw [update_spec_invalid id p c n st u hu ha hv] at hr
      exact absurd hr (by simp)
  · rw [update_spec_auth_err id p c n st u hu ha] at hr
    exact absurd hr (by simp)

/-- Concrete C6 check: A updates their record at time 9; id, author and
created_at survive, the rest comes from the payload. -/
theorem update_preserves_write_once_witness :
    sampleUpdated.id = sampleRecord.id ∧
    sampleUpdated.author = sampleRecord.author ∧
    sampleUpdated.created_at = sampleRecord.created_at ∧
    sampleUpdated.title = goodPayload.title ∧
    sampleUpdated.description = goodPayload.description ∧
    sampleUpdated.location = goodPayload.location ∧
    sampleUpdated.timestamp = some 9 :=
  update_preserves_write_once 0 goodPayload "A" 9 sampleState sampleRecord
    sampleUpdated (by rfl) (by rfl)

/-- C7 fails as stated: with an invalid payload but an absent id,
`update_crisis_update` returns `NotFound`, not `InputValidationFailed`, so
"returns InputValidationFailed iff the payload violates a minimum-length
rule" does not hold of `update_crisis_update` unconditionally. -/
theorem update_invalid_payload_absent_id_not_validation :
    badPayload.description.length < 10 ∧
    (update_crisis_update 0 badPayload "A" 0 initState).1 =
      Except.error (Error.NotFound
        "could not update a crisis update with id=0. update not found") := by
  constructor
  · decide
  · rfl

/-- C7 (amended): the validation gate passes exactly when title is at least
1 char, description at least 10 and location at least 2; `add_crisis_update`
returns `InputValidationFailed` exactly for payloads violating a minimum,
and `update_crisis_update` does so once the id exists and the caller is the
stored author. -/
theorem validation_gate_iff (p : CrisisUpdatePayload) :
    (_check_input p = Except.ok () ↔ validPayload p) ∧
    (∀ c n st, (∃ m, (add_crisis_update p c n st).1 =
        Except.error (Error.InputValidationFailed m)) ↔ ¬ validPayload p) ∧
    (∀ id c n st u, storeGet st.storage id = some u → u.author = c →
      ((∃ m, (update_crisis_update id p c n st).1 =
          Except.error (Error.InputValidationFailed m)) ↔ ¬ validPayload p)) := by
  refine ⟨check_input_ok_iff p, ?_, ?_⟩
  · intro c n st
    constructor
    · rintro ⟨m, hm⟩
      by_cases hv : validPayload p
      · rw [add_spec_ok p c n st hv] at hm
        exact absurd hm (by simp)
      · exact hv
    · intro hv
      exact ⟨validation_err_msg, by rw [add_spec_err p c n st hv]⟩
  · intro id c n st u hu ha
    constructor
    · rintro ⟨m, hm⟩
      by_cases hv : validPayload p
      · rw [update_spec_ok id p c n st u hu ha hv] at hm
        exact absurd hm (by simp)
      · exact hv
    · intro hv
      exact ⟨validation_err_msg,
        by rw [update_spec_invalid id p c n st u hu ha hv]⟩

/-- Concrete C7 check: the sample valid payload passes the gate. -/
theorem validation_gate_iff_witness :
    _check_input goodPayload = Except.ok () :=
  (validation_gate_iff goodPayload).1.mpr (by decide)

/-- C1 (code evaluated at the failing input): `delete_crisis_update` on an
absent id panics through `Option::expect` — an abnormal termination — rather
than returning the typed `NotFound` error, and the store is untouched. -/
theorem delete_absent_panics :
    delete_crisis_update 7 "A" initState =
      (Outcome.panic
        "could not delete a crisis_update with id=7. crisis_update not found.",
       initState) := by
  rfl

/-- C8: searching by location on a non-empty store returns exactly the
stored records whose location equals the argument by string equality, in
ascending id order; an empty store and a no-match search each produce a
`NotFound` error, and the two messages are distinct. -/
theorem search_by_location_spec (st : CanisterState) (loc : String) (h : WF st) :
    (st.storage = [] →
      search_crisis_updates_by_location loc st = Except.error (Error.NotFound
        "There are currently no crisis update reported in the canister")) ∧
    (st.storage ≠ [] → (∀ kv ∈ st.storage, kv.2.location ≠ loc) →
      search_crisis_updates_by_location loc st = Except.error (Error.NotFound
        ("There are currently no crisis update reported in the location ="
          ++ loc)) ∧
      ("There are currently no crisis update reported in the location ="
        ++ loc) ≠
        "There are currently no crisis update reported in the canister") ∧
    (∀ kv0, kv0 ∈ st.storage → kv0.2.location = loc →
      ∃ l, search_crisis_updates_by_location loc st = Except.ok l ∧
        (∀ r, r ∈ l ↔ ∃ k, (k, r) ∈ st.storage ∧ r.location = loc) ∧
        List.Pairwise (· < ·) (l.map CrisisUpdate.id)) := by
  refine ⟨?_, ?_, ?_⟩
  · intro he
    simp [search_crisis_updates_by_location, he]
  · intro hne hnm
    have hemp : st.storage.isEmpty = false := by
      simpa [List.isEmpty_iff] using hne
    have hf : st.storage.filter (fun kv => kv.2.location = loc) = [] :=
      List.filter_eq_nil_iff.mpr (fun kv hkv => by simpa using hnm kv hkv)
    constructor
    · simp [search_crisis_updates_by_location, hemp, hf]
    · intro hEq
      have hlen := congrArg String.length hEq
      rw [String.length_append] at hlen
      have h1 : ("There are currently no crisis update reported in the location =").length = 63 := by
        decide
      have h2 : ("There are currently no crisis update reported in the canister").length = 61 := by
        decide
      omega
  · intro kv0 hmem hloc
    have hne : st.storage ≠ [] := List.ne_nil_of_mem hmem
    have hemp : st.storage.isEmpty = false := by
      simpa [List.isEmpty_iff] using hne
    have hfmem : kv0 ∈ st.storage.filter (fun kv => kv.2.location = loc) :=
      List.mem_filter.mpr ⟨hmem, by simp [hloc]⟩
    have hlen :
        ((st.storage.filter (fun kv => kv.2.location = loc)).map
          (fun kv => kv.2)).length ≠ 0 := by
      simp only [List.length_map]
      intro hz
      rw [List.length_eq_zero] at hz
      rw [hz] at hfmem
      exact absurd hfmem (List.not_mem_nil kv0)
    refine ⟨(st.storage.filter (fun kv => kv.2.location = loc)).map
      (fun kv => kv.2), ?_, ?_, ?_⟩
    · simp only [search_crisis_updates_by_location, hemp, Bool.false_eq_true,
        if_false, if_neg hlen]
    · intro r
      constructor
      · intro hr
        rcases List.mem_map.1 hr with ⟨kv, hkv, rfl⟩
        obtain ⟨hkvm, hkvl⟩ := List.mem_filter.1 hkv
        exact ⟨kv.1, by simpa using hkvm, by simpa using hkvl⟩
      · rintro ⟨k, hk, hl⟩
        exact List.mem_map.2 ⟨(k, r), List.mem_filter.2 ⟨hk, by simp [hl]⟩, rfl⟩
    · rw [List.map_map, List.pairwise_map]
      have hsub : (st.storage.filter (fun kv => kv.2.location = loc)).Sublist
          st.storage := List.filter_sublist st.storage
      have hpw := h.1.sublist hsub
      refine pairwise_imp_of_mem ?_ hpw
      intro a hma b hmb hab
      have hida := h.2 a (hsub.subset hma)
      have hidb := h.2 b (hsub.subset hmb)
      simp only [Function.comp]
      omega

/-- Concrete C8 check: on a store with records in Nairobi (id 0) and Lagos
(id 1), searching Nairobi returns exactly the Nairobi subset in id order. -/
theorem search_by_location_spec_witness :
    ∃ l, search_crisis_updates_by_location "Nairobi" twoCityState = Except.ok l ∧
      (∀ r, r ∈ l ↔ ∃ k, (k, r) ∈ twoCityState.storage ∧
        r.location = "Nairobi") ∧
      List.Pairwise (· < ·) (l.map CrisisUpdate.id) :=
  (search_by_location_spec twoCityState "Nairobi" (by constructor <;>
      simp [twoCityState, nairobiRecord, lagosRecord])).2.2
    (0, nairobiRecord) (by simp [twoCityState]) (by rfl)

/-- C9: the title and description queries return exactly the stored records
whose respective field contains the argument as a substring, and return an
empty list (not an error) when nothing matches, including on the empty
store. -/
theorem substring_queries_spec (st : CanisterState) (s : String) :
    (∀ r, r ∈ get_crisis_updates_by_title s st ↔
      ∃ k, (k, r) ∈ st.storage ∧ s.data <:+: r.title.data) ∧
    (∀ r, r ∈ get_crisis_updates_by_description s st ↔
      ∃ k, (k, r) ∈ st.storage ∧ s.data <:+: r.description.data) ∧
    ((∀ kv ∈ st.storage, ¬ (s.data <:+: kv.2.title.data)) →
      get_crisis_updates_by_title s st = []) ∧
    ((∀ kv ∈ st.storage, ¬ (s.data <:+: kv.2.description.data)) →
      get_crisis_updates_by_description s st = []) ∧
    get_crisis_updates_by_title s initState = [] ∧
    get_crisis_updates_by_description s initState = [] := by
  refine ⟨?_, ?_, ?_, ?_, rfl, rfl⟩
  · intro r
    constructor
    · intro hr
      rcases List.mem_map.1 hr with ⟨kv, hkv, rfl⟩
      obtain ⟨hm, hc⟩ := List.mem_filter.1 hkv
      rw [strContains, decide_eq_true_eq] at hc
      exact ⟨kv.1, by simpa using hm, hc⟩
    · rintro ⟨k, hk, hc⟩
      exact List.mem_map.2 ⟨(k, r),
        List.mem_filter.2 ⟨hk, by rw [strContains, decide_eq_true_eq]; exact hc⟩,
        rfl⟩
  · intro r
    constructor
    · intro hr
      rcases List.mem_map.1 hr with ⟨kv, hkv, rfl⟩
      obtain ⟨hm, hc⟩ := List.mem_filter.1 hkv
      rw [strContains, decide_eq_true_eq] at hc
      exact ⟨kv.1, by simpa using hm, hc⟩
    · rintro ⟨k, hk, hc⟩
      exact List.mem_map.2 ⟨(k, r),
        List.mem_filter.2 ⟨hk, by rw [strContains, decide_eq_true_eq]; exact hc⟩,
        rfl⟩
  · intro hnm
    unfold get_crisis_updates_by_title
    rw [List.filter_eq_nil_iff.mpr (fun kv hkv => by
      rw [strContains, decide_eq_true_eq]
      exact hnm kv hkv)]
    rfl
  · intro hnm
    unfold get_crisis_updates_by_description
    rw [List.filter_eq_nil_iff.mpr (fun kv hkv => by
      rw [strContains, decide_eq_true_eq]
      exact hnm kv hkv)]
    rfl

/-- Concrete C9 check: a substring matching no title yields the empty list,
not an error. -/
theorem substring_queries_spec_witness :
    get_crisis_updates_by_title "zzz" twoCityState = [] :=
  (substring_queries_spec twoCityState "zzz").2.2.1 (by decide)

/-- C10: a record whose timestamp was never set (None) is excluded from
`get_crisis_updates_in_range` and `get_crisis_updates_after` for all bounds,
and included in `get_crisis_updates_before` for every bound, because the
unset timestamp compares below every set one. -/
theorem unset_timestamp_range_behavior (st : CanisterState) (r : CrisisUpdate)
    (h : r.timestamp = none) :
    (∀ lo hi, r ∉ get_crisis_updates_in_range lo hi st) ∧
    (∀ ts, r ∉ get_crisis_updates_after ts st) ∧
    (∀ ts, (∃ k, (k, r) ∈ st.storage) →
      r ∈ get_crisis_updates_before ts st) := by
  refine ⟨?_, ?_, ?_⟩
  · intro lo hi hmem
    unfold get_crisis_updates_in_range at hmem
    rcases List.mem_map.1 hmem with ⟨kv, hkv, hr⟩
    have hc := (List.mem_filter.1 hkv).2
    rw [hr, h] at hc
    simp [optTsGe] at hc
  · intro ts hmem
    unfold get_crisis_updates_after at hmem
    rcases List.mem_map.1 hmem with ⟨kv, hkv, hr⟩
    have hc := (List.mem_filter.1 hkv).2
    rw [hr, h] at hc
    simp [optTsGt] at hc
  · rintro ts ⟨k, hk⟩
    unfold get_crisis_updates_before
    exact List.mem_map.2 ⟨(k, r),
      List.mem_filter.2 ⟨hk, by rw [h]; rfl⟩, rfl⟩

/-- Concrete C10 check: the never-updated Nairobi record appears in
`get_crisis_updates_before 0`. -/
theorem unset_timestamp_range_behavior_witness :
    nairobiRecord ∈ get_crisis_updates_before 0 twoCityState :=
  (unset_timestamp_range_behavior twoCityState nairobiRecord rfl).2.2 0
    ⟨0, by simp [twoCityState]⟩

end CrisisBackend
